import Mathlib

/-!
Verification of the Tax-Calculator Records class (taxcalc/records.py): a
shallow embedding of the record data model, the Stage 1 blowup extrapolation,
the blowup-factor normalization, the 2009 imputations and the reference-file
loaders, with theorems checking the specified behavior.

All monetary and factor values are modelled as exact rationals; numpy
vectorized operations act elementwise, so per-record functions over a
structure of the per-record field values, mapped over a list of records,
model the parallel-vector attributes of the Python class.
-/

namespace TaxRecords

/-- Records.PUF_YEAR, the native year of the 2009 PUF sample. -/
def PUF_YEAR : Int := 2009

/-- Records.WEIGHTS_FILENAME, the bundled default weights file name. -/
def WEIGHTS_FILENAME : String := "WEIGHTS.csv"

/-- Records.BLOWUP_FACTORS_FILENAME, the bundled default factors file name. -/
def BLOWUP_FACTORS_FILENAME : String := "StageIFactors.csv"

/-- One row of the blowup-factor table BF: the named macro series columns of
StageIFactors.csv (see the YEAR-indexed CSV columns listed in the repository). -/
structure FactorsRow where
  AGDPN : ℚ := 1
  ATXPY : ℚ := 1
  AWAGE : ℚ := 1
  ASCHCI : ℚ := 1
  ASCHCL : ℚ := 1
  ASCHF : ℚ := 1
  AINTS : ℚ := 1
  ADIVS : ℚ := 1
  ASCHEI : ℚ := 1
  ASCHEL : ℚ := 1
  ACGNS : ℚ := 1
  ABOOK : ℚ := 1
  ARETS : ℚ := 1
  APOPN : ℚ := 1
  ACPIU : ℚ := 1
  APOPDEP : ℚ := 1
  ASOCSEC : ℚ := 1
  ACPIM : ℚ := 1
  AUCOMP : ℚ := 1
  APOPSNR : ℚ := 1
  AIPD : ℚ := 1

set_option genInjectivity false in
/-- One tax-filing-unit record: the per-record fields that the private methods
of the Records class read or write (each Python attribute is a parallel vector;
here one structure holds the values of a single record, vectorization being
elementwise).  Fields absent from the raw sample are zero-initialized by
the data loader, hence the 0 defaults.  The Python attribute e04470 is an
alias of the same array as p04470, so only p04470 appears here. -/
structure Record where
  FLPDYR : ℚ := 0
  MARS : ℚ := 0
  FDED : ℚ := 0
  wage_head : ℚ := 0
  wage_spouse : ℚ := 0
  e00200 : ℚ := 0
  e00200p : ℚ := 0
  e00200s : ℚ := 0
  e00300 : ℚ := 0
  e00400 : ℚ := 0
  e00600 : ℚ := 0
  e00650 : ℚ := 0
  e00700 : ℚ := 0
  e00800 : ℚ := 0
  e00900 : ℚ := 0
  e00900s : ℚ := 0
  e00900p : ℚ := 0
  e01000 : ℚ := 0
  e01100 : ℚ := 0
  e01200 : ℚ := 0
  e01400 : ℚ := 0
  e01500 : ℚ := 0
  e01700 : ℚ := 0
  e02000 : ℚ := 0
  e02100 : ℚ := 0
  e02100p : ℚ := 0
  e02100s : ℚ := 0
  e02300 : ℚ := 0
  e02400 : ℚ := 0
  e02500 : ℚ := 0
  e03150 : ℚ := 0
  e03210 : ℚ := 0
  e03220 : ℚ := 0
  e03230 : ℚ := 0
  e03260 : ℚ := 0
  e03270 : ℚ := 0
  e03240 : ℚ := 0
  e03290 : ℚ := 0
  e03300 : ℚ := 0
  e03400 : ℚ := 0
  e03500 : ℚ := 0
  e00100 : ℚ := 0
  p04470 : ℚ := 0
  e04250 : ℚ := 0
  e04600 : ℚ := 0
  e04800 : ℚ := 0
  e05100 : ℚ := 0
  e05200 : ℚ := 0
  e05800 : ℚ := 0
  e06000 : ℚ := 0
  e06200 : ℚ := 0
  e06300 : ℚ := 0
  e09600 : ℚ := 0
  e07180 : ℚ := 0
  e07200 : ℚ := 0
  e07220 : ℚ := 0
  e07230 : ℚ := 0
  e07240 : ℚ := 0
  e07260 : ℚ := 0
  e07300 : ℚ := 0
  e07400 : ℚ := 0
  e07600 : ℚ := 0
  p08000 : ℚ := 0
  e07150 : ℚ := 0
  e06500 : ℚ := 0
  e08800 : ℚ := 0
  e09400 : ℚ := 0
  e09700 : ℚ := 0
  e09800 : ℚ := 0
  e09900 : ℚ := 0
  e10300 : ℚ := 0
  e10700 : ℚ := 0
  e10900 : ℚ := 0
  e59560 : ℚ := 0
  e59680 : ℚ := 0
  e59700 : ℚ := 0
  e59720 : ℚ := 0
  e11550 : ℚ := 0
  e11070 : ℚ := 0
  e11100 : ℚ := 0
  e11200 : ℚ := 0
  e11300 : ℚ := 0
  e11400 : ℚ := 0
  e11570 : ℚ := 0
  e11580 : ℚ := 0
  e11581 : ℚ := 0
  e11582 : ℚ := 0
  e11583 : ℚ := 0
  e10605 : ℚ := 0
  e11900 : ℚ := 0
  e12000 : ℚ := 0
  e12200 : ℚ := 0
  e17500 : ℚ := 0
  e18400 : ℚ := 0
  e18500 : ℚ := 0
  e19200 : ℚ := 0
  e19550 : ℚ := 0
  e19800 : ℚ := 0
  e20100 : ℚ := 0
  e19700 : ℚ := 0
  e20550 : ℚ := 0
  e20600 : ℚ := 0
  e20400 : ℚ := 0
  e20800 : ℚ := 0
  e20500 : ℚ := 0
  e21040 : ℚ := 0
  p22250 : ℚ := 0
  e22320 : ℚ := 0
  e22370 : ℚ := 0
  p23250 : ℚ := 0
  e24515 : ℚ := 0
  e24516 : ℚ := 0
  e24518 : ℚ := 0
  e24535 : ℚ := 0
  e24560 : ℚ := 0
  e24598 : ℚ := 0
  e24615 : ℚ := 0
  e24570 : ℚ := 0
  p25350 : ℚ := 0
  p25380 : ℚ := 0
  p25470 : ℚ := 0
  p25700 : ℚ := 0
  e25820 : ℚ := 0
  e25850 : ℚ := 0
  e25860 : ℚ := 0
  e25940 : ℚ := 0
  e25980 : ℚ := 0
  e25920 : ℚ := 0
  e25960 : ℚ := 0
  e26110 : ℚ := 0
  e26170 : ℚ := 0
  e26190 : ℚ := 0
  e26160 : ℚ := 0
  e26180 : ℚ := 0
  e26270 : ℚ := 0
  e26100 : ℚ := 0
  e26390 : ℚ := 0
  e26400 : ℚ := 0
  e27200 : ℚ := 0
  e30400 : ℚ := 0
  e30500 : ℚ := 0
  e32800 : ℚ := 0
  e33000 : ℚ := 0
  e53240 : ℚ := 0
  e53280 : ℚ := 0
  e53410 : ℚ := 0
  e53300 : ℚ := 0
  e53317 : ℚ := 0
  e53458 : ℚ := 0
  e58950 : ℚ := 0
  e58990 : ℚ := 0
  p60100 : ℚ := 0
  p61850 : ℚ := 0
  e60000 : ℚ := 0
  e62100 : ℚ := 0
  e62900 : ℚ := 0
  e62720 : ℚ := 0
  e62730 : ℚ := 0
  e62740 : ℚ := 0
  p65300 : ℚ := 0
  p65400 : ℚ := 0
  e68000 : ℚ := 0
  e82200 : ℚ := 0
  t27800 : ℚ := 0
  s27860 : ℚ := 0
  p27895 : ℚ := 0
  e87530 : ℚ := 0
  e87550 : ℚ := 0
  e87521 : ℚ := 0
  RECID : ℚ := 0
  s006 : ℚ := 0
  s008 : ℚ := 0
  s009 : ℚ := 0
  WSAMP : ℚ := 0
  TXRT : ℚ := 0
  _cmbtp_itemizer : ℚ := 0
  _cmbtp_standard : ℚ := 0
  _txpyers : ℚ := 0
  _numextra : ℚ := 0
  _earning_split : ℚ := 0

/-- The Stage 1 extrapolation of a single record by the factor row bf of the
requested year: the body of Records._blowup, field for field in source order,
with times_equal rendered as in-place multiplication and np.where as a
pointwise conditional. -/
def blowup (bf : FactorsRow) (r : Record) : Record :=
  { r with
    e00200 := r.e00200 * bf.AWAGE,
    e00200p := r.e00200p * bf.AWAGE,
    e00200s := r.e00200s * bf.AWAGE,
    e00300 := r.e00300 * bf.AINTS,
    e00400 := r.e00400 * bf.AINTS,
    e00600 := r.e00600 * bf.ADIVS,
    e00650 := r.e00650 * bf.ADIVS,
    e00700 := r.e00700 * bf.ATXPY,
    e00800 := r.e00800 * bf.ATXPY,
    e00900 := if r.e00900 ≥ 0 then r.e00900 * bf.ASCHCI else r.e00900 * bf.ASCHCL,
    e00900s := if r.e00900s ≥ 0 then r.e00900s * bf.ASCHCI else r.e00900s * bf.ASCHCL,
    e00900p := if r.e00900p ≥ 0 then r.e00900p * bf.ASCHCI else r.e00900p * bf.ASCHCL,
    e01000 := if r.e01000 ≥ 0 then r.e01000 * bf.ACGNS else r.e01000,
    e01100 := r.e01100 * bf.ACGNS,
    e01200 := r.e01200 * bf.ACGNS,
    e01400 := r.e01400 * bf.ATXPY,
    e01500 := r.e01500 * bf.ATXPY,
    e01700 := r.e01700 * bf.ATXPY,
    e02000 := if r.e02000 ≥ 0 then r.e02000 * bf.ASCHEI else r.e02000 * bf.ASCHEL,
    e02100 := r.e02100 * bf.ASCHF,
    e02100p := r.e02100p * bf.ASCHF,
    e02100s := r.e02100s * bf.ASCHF,
    e02300 := r.e02300 * bf.AUCOMP,
    e02400 := r.e02400 * bf.ASOCSEC,
    e02500 := r.e02500 * bf.ASOCSEC,
    e03150 := r.e03150 * bf.ATXPY,
    e03210 := r.e03210 * bf.ATXPY,
    e03220 := r.e03220 * bf.ATXPY,
    e03230 := r.e03230 * bf.ATXPY,
    e03260 := r.e03260 * bf.ASCHCI,
    e03270 := r.e03270 * bf.ACPIM,
    e03240 := r.e03240 * bf.AGDPN,
    e03290 := r.e03290 * bf.ACPIM,
    e03300 := r.e03300 * bf.ATXPY,
    e03400 := r.e03400 * bf.ATXPY,
    e03500 := r.e03500 * bf.ATXPY,
    e00100 := r.e00100 * 1,
    p04470 := r.p04470 * 1,
    e04250 := r.e04250 * 1,
    e04600 := r.e04600 * 1,
    e04800 := r.e04800 * 1,
    e05100 := r.e05100 * 1,
    e05200 := r.e05200 * 1,
    e05800 := r.e05800 * 1,
    e06000 := r.e06000 * 1,
    e06200 := r.e06200 * 1,
    e06300 := r.e06300 * 1,
    e09600 := r.e09600 * 1,
    e07180 := r.e07180 * 1,
    e07200 := r.e07200 * 1,
    e07220 := r.e07220 * 1,
    e07230 := r.e07230 * bf.ATXPY,
    e07240 := r.e07240 * bf.ATXPY,
    e07260 := r.e07260 * bf.ATXPY,
    e07300 := r.e07300 * bf.ABOOK,
    e07400 := r.e07400 * bf.ABOOK,
    e07600 := r.e07600 * 1,
    p08000 := r.p08000 * bf.ATXPY,
    e07150 := r.e07150 * 1,
    e06500 := r.e06500 * 1,
    e08800 := r.e08800 * 1,
    e09400 := r.e09400 * 1,
    e09700 := r.e09700 * bf.ATXPY,
    e09800 := r.e09800 * bf.ATXPY,
    e09900 := r.e09900 * bf.ATXPY,
    e10300 := r.e10300 * 1,
    e10700 := r.e10700 * bf.ATXPY,
    e10900 := r.e10900 * bf.ATXPY,
    e59560 := r.e59560 * bf.ATXPY,
    e59680 := r.e59680 * bf.ATXPY,
    e59700 := r.e59700 * bf.ATXPY,
    e59720 := r.e59720 * bf.ATXPY,
    e11550 := r.e11550 * bf.ATXPY,
    e11070 := r.e11070 * bf.ATXPY,
    e11100 := r.e11100 * bf.ATXPY,
    e11200 := r.e11200 * bf.ATXPY,
    e11300 := r.e11300 * bf.ATXPY,
    e11400 := r.e11400 * bf.ATXPY,
    e11570 := r.e11570 * bf.ATXPY,
    e11580 := r.e11580 * bf.ATXPY,
    e11581 := r.e11581 * bf.ATXPY,
    e11582 := r.e11582 * bf.ATXPY,
    e11583 := r.e11583 * bf.ATXPY,
    e10605 := r.e10605 * bf.ATXPY,
    e11900 := r.e11900 * 1,
    e12000 := r.e12000 * 1,
    e12200 := r.e12200 * 1,
    e17500 := r.e17500 * bf.ACPIM,
    e18400 := r.e18400 * bf.ATXPY,
    e18500 := r.e18500 * bf.ATXPY,
    e19200 := r.e19200 * bf.AIPD,
    e19550 := r.e19550 * bf.ATXPY,
    e19800 := r.e19800 * bf.ATXPY,
    e20100 := r.e20100 * bf.ATXPY,
    e19700 := r.e19700 * bf.ATXPY,
    e20550 := r.e20550 * bf.ATXPY,
    e20600 := r.e20600 * bf.ATXPY,
    e20400 := r.e20400 * bf.ATXPY,
    e20800 := r.e20800 * bf.ATXPY,
    e20500 := r.e20500 * bf.ATXPY,
    e21040 := r.e21040 * bf.ATXPY,
    p22250 := r.p22250 * bf.ACGNS,
    e22320 := r.e22320 * bf.ACGNS,
    e22370 := r.e22370 * bf.ACGNS,
    p23250 := r.p23250 * bf.ACGNS,
    e24515 := r.e24515 * bf.ACGNS,
    e24516 := r.e24516 * bf.ACGNS,
    e24518 := r.e24518 * bf.ACGNS,
    e24535 := r.e24535 * bf.ACGNS,
    e24560 := r.e24560 * bf.ACGNS,
    e24598 := r.e24598 * bf.ACGNS,
    e24615 := r.e24615 * bf.ACGNS,
    e24570 := r.e24570 * bf.ACGNS,
    p25350 := r.p25350 * bf.ASCHEI,
    p25380 := r.p25380 * bf.ASCHEI,
    p25470 := r.p25470 * bf.ASCHEI,
    p25700 := r.p25700 * bf.ASCHEI,
    e25820 := r.e25820 * bf.ASCHEI,
    e25850 := r.e25850 * bf.ASCHEI,
    e25860 := r.e25860 * bf.ASCHEI,
    e25940 := r.e25940 * bf.ASCHEI,
    e25980 := r.e25980 * bf.ASCHEI,
    e25920 := r.e25920 * bf.ASCHEI,
    e25960 := r.e25960 * bf.ASCHEI,
    e26110 := r.e26110 * bf.ASCHEI,
    e26170 := r.e26170 * bf.ASCHEI,
    e26190 := r.e26190 * bf.ASCHEI,
    e26160 := r.e26160 * bf.ASCHEI,
    e26180 := r.e26180 * bf.ASCHEI,
    e26270 := r.e26270 * bf.ASCHEI,
    e26100 := r.e26100 * bf.ASCHEI,
    e26390 := r.e26390 * bf.ASCHEI,
    e26400 := r.e26400 * bf.ASCHEI,
    e27200 := r.e27200 * bf.ASCHEI,
    e30400 := r.e30400 * bf.ASCHCI,
    e30500 := r.e30500 * bf.ASCHCI,
    e32800 := r.e32800 * bf.ATXPY,
    e33000 := r.e33000 * bf.ATXPY,
    e53240 := r.e53240 * bf.ATXPY,
    e53280 := r.e53280 * bf.ATXPY,
    e53410 := r.e53410 * bf.ATXPY,
    e53300 := r.e53300 * bf.ATXPY,
    e53317 := r.e53317 * bf.ATXPY,
    e53458 := r.e53458 * bf.ATXPY,
    e58950 := r.e58950 * bf.ATXPY,
    e58990 := r.e58990 * bf.ATXPY,
    p60100 := r.p60100 * bf.ATXPY,
    p61850 := r.p61850 * bf.ATXPY,
    e60000 := r.e60000 * bf.ATXPY,
    e62100 := r.e62100 * bf.ATXPY,
    e62900 := r.e62900 * bf.ATXPY,
    e62720 := r.e62720 * bf.ATXPY,
    e62730 := r.e62730 * bf.ATXPY,
    e62740 := r.e62740 * bf.ATXPY,
    p65300 := r.p65300 * bf.ATXPY,
    p65400 := r.p65400 * bf.ATXPY,
    e68000 := r.e68000 * bf.ATXPY,
    e82200 := r.e82200 * bf.ATXPY,
    t27800 := r.t27800 * bf.ATXPY,
    s27860 := r.s27860 * bf.ATXPY,
    p27895 := r.p27895 * bf.ATXPY,
    e87530 := r.e87530 * bf.ATXPY,
    e87550 := r.e87550 * bf.ATXPY,
    e87521 := r.e87521 * bf.ATXPY,
    RECID := r.RECID * 1,
    s006 := r.s006 * 1,
    s008 := r.s008 * 1,
    s009 := r.s009 * 1,
    WSAMP := r.WSAMP * 1,
    TXRT := r.TXRT * 1,
    _cmbtp_itemizer := r._cmbtp_itemizer * bf.ATXPY,
    _cmbtp_standard := r._cmbtp_standard * bf.ATXPY }
/-- Step 1 of the Records._read_blowup normalization: divide each economy-wide
aggregate series by its population divisor, AGDPN through ABOOK by APOPN and
ASOCSEC by APOPSNR, in source order; ARETS and the count and deflator columns
APOPN, ACPIU, APOPDEP, ACPIM, AUCOMP, APOPSNR, AIPD are not divided. -/
def divideByPop (b : FactorsRow) : FactorsRow :=
  { b with
    AGDPN := b.AGDPN / b.APOPN,
    ATXPY := b.ATXPY / b.APOPN,
    AWAGE := b.AWAGE / b.APOPN,
    ASCHCI := b.ASCHCI / b.APOPN,
    ASCHCL := b.ASCHCL / b.APOPN,
    ASCHF := b.ASCHF / b.APOPN,
    AINTS := b.AINTS / b.APOPN,
    ADIVS := b.ADIVS / b.APOPN,
    ASCHEI := b.ASCHEI / b.APOPN,
    ASCHEL := b.ASCHEL / b.APOPN,
    ACGNS := b.ACGNS / b.APOPN,
    ABOOK := b.ABOOK / b.APOPN,
    ASOCSEC := b.ASOCSEC / b.APOPSNR }

/-- Step 2 of the Records._read_blowup normalization, BF = 1 + BF.pct_change(),
at one table row given the row above it: every column c of the dataframe,
the count and deflator columns included, becomes 1 + (cur.c - prev.c) / prev.c. -/
def onePlusPctChange (prev cur : FactorsRow) : FactorsRow :=
  { AGDPN := 1 + (cur.AGDPN - prev.AGDPN) / prev.AGDPN,
    ATXPY := 1 + (cur.ATXPY - prev.ATXPY) / prev.ATXPY,
    AWAGE := 1 + (cur.AWAGE - prev.AWAGE) / prev.AWAGE,
    ASCHCI := 1 + (cur.ASCHCI - prev.ASCHCI) / prev.ASCHCI,
    ASCHCL := 1 + (cur.ASCHCL - prev.ASCHCL) / prev.ASCHCL,
    ASCHF := 1 + (cur.ASCHF - prev.ASCHF) / prev.ASCHF,
    AINTS := 1 + (cur.AINTS - prev.AINTS) / prev.AINTS,
    ADIVS := 1 + (cur.ADIVS - prev.ADIVS) / prev.ADIVS,
    ASCHEI := 1 + (cur.ASCHEI - prev.ASCHEI) / prev.ASCHEI,
    ASCHEL := 1 + (cur.ASCHEL - prev.ASCHEL) / prev.ASCHEL,
    ACGNS := 1 + (cur.ACGNS - prev.ACGNS) / prev.ACGNS,
    ABOOK := 1 + (cur.ABOOK - prev.ABOOK) / prev.ABOOK,
    ARETS := 1 + (cur.ARETS - prev.ARETS) / prev.ARETS,
    APOPN := 1 + (cur.APOPN - prev.APOPN) / prev.APOPN,
    ACPIU := 1 + (cur.ACPIU - prev.ACPIU) / prev.ACPIU,
    APOPDEP := 1 + (cur.APOPDEP - prev.APOPDEP) / prev.APOPDEP,
    ASOCSEC := 1 + (cur.ASOCSEC - prev.ASOCSEC) / prev.ASOCSEC,
    ACPIM := 1 + (cur.ACPIM - prev.ACPIM) / prev.ACPIM,
    AUCOMP := 1 + (cur.AUCOMP - prev.AUCOMP) / prev.AUCOMP,
    APOPSNR := 1 + (cur.APOPSNR - prev.APOPSNR) / prev.APOPSNR,
    AIPD := 1 + (cur.AIPD - prev.AIPD) / prev.AIPD }

/-- The whole Records._read_blowup normalization at the row of one year, given
the raw row of the preceding year: the per-capita division followed by the
1 + pct_change step (pct_change compares to the row above, and the table rows
are indexed by consecutive YEAR values). -/
def normalizeBF (prev cur : FactorsRow) : FactorsRow :=
  onePlusPctChange (divideByPop prev) (divideByPop cur)

/-- The numba-vectorized module-level function imputed_cmbtp_itemizer, at one
record: the combined preference measure for itemizers.  The e04470 argument
receives p04470 from the caller Records._imputed_cmbtp_itemizer. -/
def imputed_cmbtp_itemizer (e17500 e00100 e18400 e62100 e00700
    e04470 e21040 e18500 e20800 : ℚ) : ℚ :=
  let medical_limited := max 0 (e17500 - max 0 e00100 * 0.075)
  let medical_adjustment := min medical_limited (0.025 * max 0 e00100)
  let state_adjustment := max 0 e18400
  e62100 - medical_adjustment + e00700 + e04470 + e21040 -
    state_adjustment - e00100 - e18500 - e20800

/-- The std_2009 array of Records._impute_variables, indexed at MARS - 1. MARS
is a filing-status code in 1 to 6 in the data model; entry 7 of the array is
the last entry, which numpy index arithmetic also yields for MARS = 0. -/
def std_2009 (mars : ℚ) : ℚ :=
  if mars = 1 then 5700
  else if mars = 2 then 11400
  else if mars = 3 then 5700
  else if mars = 4 then 8350
  else if mars = 5 then 11400
  else if mars = 6 then 5700
  else 950

/-- Records._impute_variables at one record: the one-time 2009 PUF imputations.
The std_aged_2009 array is inlined as its two entries 1400 and 1100, and the
Python attribute e04470 is read through its alias p04470. -/
def impute (r : Record) : Record :=
  let cmbtp_itemizer := imputed_cmbtp_itemizer r.e17500 r.e00100 r.e18400
    r.e62100 r.e00700 r.p04470 r.e21040 r.e18500 r.e20800
  let cmbtp_standard := r.e62100 - r.e00100 + r.e00700
  let txpyers : ℚ := if r.MARS = 2 ∨ r.MARS = 3 ∨ r.MARS = 6 then 2 else 1
  let numextra : ℚ :=
    if r.FDED = 2 ∧ r.p04470 > std_2009 r.MARS then
      (if r.MARS ≠ 2 ∧ r.MARS ≠ 3 then (r.p04470 - std_2009 r.MARS) / 1400
       else (r.p04470 - std_2009 r.MARS) / 1100)
    else (if r.e02400 > 0 then txpyers else 0)
  let total : ℚ := if r.MARS = 2 then r.wage_head + r.wage_spouse else 0
  let earning_split : ℚ := if total ≠ 0 then r.wage_head / total else 1
  { r with
    _cmbtp_itemizer := cmbtp_itemizer,
    _cmbtp_standard := cmbtp_standard,
    _txpyers := txpyers,
    _numextra := numextra,
    _earning_split := earning_split,
    e00200p := earning_split * r.e00200,
    e00200s := (1 - earning_split) * r.e00200,
    e00900p := earning_split * r.e00900,
    e00900s := (1 - earning_split) * r.e00900,
    e02100p := earning_split * r.e02100,
    e02100s := (1 - earning_split) * r.e02100 }

/-- The mutable state of a Records instance that increment_year touches: the
scalar current year, the per-record field vectors (a list of records), the
normalized blowup-factor table BF indexed by year (none models a missing row,
whose access raises KeyError, a LookupError), and the weight table WT as one
per-record column per year (none models a missing WT-year column). -/
structure RecState where
  current_year : Int
  recs : List Record
  BF : Int → Option FactorsRow
  WT : Int → Option (List ℚ)

/-- Records.increment_year.  The Python method mutates in order: the scalar
year, then the FLPDYR vector, then _blowup (whose first factor-row access
raises LookupError when the row of the new year is missing, before any record
field is written), then the s006 reweighting from the WT column of the new
year.  A raised LookupError leaves the attribute mutations already performed
visible to the caller, so Except.error carries the state as of the raise. -/
def increment_year (st : RecState) : Except RecState RecState :=
  let y := st.current_year + 1
  let st1 : RecState :=
    { st with
      current_year := y,
      recs := st.recs.map (fun r => { r with FLPDYR := r.FLPDYR + 1 }) }
  match st1.BF y with
  | none => Except.error st1
  | some bf =>
    let st2 : RecState := { st1 with recs := st1.recs.map (blowup bf) }
    match st2.WT y with
    | none => Except.error st2
    | some w =>
      Except.ok
        { st2 with
          recs := List.zipWith (fun r wi => { r with s006 := wi / 100 }) st2.recs w }

/-- Extracts the caller-visible state carried by a raised exception. -/
def errorState : Except RecState RecState → Option RecState
  | Except.error s => some s
  | Except.ok _ => none

/-- The Python exception outcomes the loader model distinguishes. -/
inductive PyError where
  | valueError : String → PyError
  | unboundLocalError : PyError
deriving DecidableEq

/-- Records._read_weights.  The weights argument is a DataFrame (inl) or a
file name (inr); fs models os.path.exists plus a successful pd.read_csv on
the filesystem, egg models resource_stream on the bundled EGG distribution,
consulted at the fixed path taxcalc/WEIGHTS.csv when the file name does not
exist on the filesystem.  When neither yields the file, the IOError of the
read is caught, the handler builds ValueError without raising it,
and control reaches the following setattr with the local WT unbound, so the
call fails with UnboundLocalError instead of ValueError. -/
def read_weights (T : Type) (fs egg : String → Option T)
    (weights : T ⊕ String) : Except PyError T :=
  match weights with
  | Sum.inl df => Except.ok df
  | Sum.inr s =>
    match fs s with
    | some t => Except.ok t
    | none =>
      match egg ("taxcalc/" ++ WEIGHTS_FILENAME) with
      | some t => Except.ok t
      | none => Except.error PyError.unboundLocalError

/-- The file-locating part of Records._read_blowup, identical in shape to
Records._read_weights but with the bundled path taxcalc/StageIFactors.csv.  On
the missing-file path the caught IOError leaves the local BF unbound, and the
first normalization line that follows fails with UnboundLocalError, so no
ValueError reaches the caller here either. -/
def read_blowup_locate (T : Type) (fs egg : String → Option T)
    (blowup_factors : T ⊕ String) : Except PyError T :=
  match blowup_factors with
  | Sum.inl df => Except.ok df
  | Sum.inr s =>
    match fs s with
    | some t => Except.ok t
    | none =>
      match egg ("taxcalc/" ++ BLOWUP_FACTORS_FILENAME) with
      | some t => Except.ok t
      | none => Except.error PyError.unboundLocalError

/-! Concrete inputs used to evaluate the definitions in the theorems below.
Structure fields left unset take the declared defaults (1 for factor series,
0 for record fields). -/

/-- A joint-filing record with the wage split of the specification example. -/
def exRecSplit : Record :=
  { MARS := 2, wage_head := 600, wage_spouse := 400, e00200 := 1000 }

/-- A joint-filing record whose wage sum is zero. -/
def exRecZeroWages : Record :=
  { MARS := 2, wage_head := 0, wage_spouse := 0, e00200 := 7 }

/-- A factor row carrying the sign-dependent example pair 1.1 and 0.9 on the
Schedule C and Schedule E series, and a capital-gains factor 1.3. -/
def exBFSign : FactorsRow :=
  { ASCHCI := 1.1, ASCHCL := 0.9, ASCHEI := 1.1, ASCHEL := 0.9, ACGNS := 1.3 }

/-- A record with negative sign-dependent fields and a negative e01000. -/
def exRecNeg : Record :=
  { e00900 := -5, e00900p := -5, e00900s := 10, e02000 := -5, e01000 := -5 }

/-- A record with a nonnegative e01000. -/
def exRecPos : Record := { e01000 := 10 }

/-- Raw factor row of the earlier year for the normalization checks. -/
def exRawPrev : FactorsRow :=
  { AGDPN := 6, ATXPY := 8, AWAGE := 10, ASCHCI := 12, ASCHCL := 14,
    ASCHF := 16, AINTS := 18, ADIVS := 20, ASCHEI := 22, ASCHEL := 24,
    ACGNS := 26, ABOOK := 28, ARETS := 30, APOPN := 2, ACPIU := 3,
    APOPDEP := 5, ASOCSEC := 32, ACPIM := 7, AUCOMP := 34, APOPSNR := 4,
    AIPD := 36 }

/-- Raw factor row of the later year for the normalization checks. -/
def exRawCur : FactorsRow :=
  { AGDPN := 9, ATXPY := 12, AWAGE := 15, ASCHCI := 18, ASCHCL := 21,
    ASCHF := 24, AINTS := 27, ADIVS := 30, ASCHEI := 33, ASCHEL := 36,
    ACGNS := 39, ABOOK := 42, ARETS := 45, APOPN := 3, ACPIU := 6,
    APOPDEP := 10, ASOCSEC := 48, ACPIM := 14, AUCOMP := 51, APOPSNR := 8,
    AIPD := 54 }

/-- A state at year 2009 with one record, a factor row for 2010 and a WT2010
weight column, for the advance checks. -/
def exSt2009 : RecState :=
  { current_year := 2009,
    recs := [{ FLPDYR := 2009, e00200 := 3, e00300 := 5, s006 := 2 }],
    BF := fun y => if y = 2010 then some exBFSign else none,
    WT := fun y => if y = 2010 then some [250] else none }

/-- A state at year 2009 whose factor table has no rows at all. -/
def exStNoRows : RecState :=
  { current_year := 2009,
    recs := [{ FLPDYR := 2009, e00200 := 3, s006 := 2 }],
    BF := fun _ => none,
    WT := fun _ => none }

/-! ## Theorems -/

/-- C6: for all rational inputs the imputed combined preference measure for
itemizers equals e62100 minus the capped medical adjustment
min (max 0 (e17500 - 0.075 max 0 e00100)) (0.025 max 0 e00100), plus e00700,
e04470 and e21040, minus max 0 e18400, e00100, e18500 and e20800; and at the
literal inputs of the specification the value is -5230. -/
theorem imputed_cmbtp_itemizer_spec :
    (∀ e17500 e00100 e18400 e62100 e00700 e04470 e21040 e18500 e20800 : ℚ,
      imputed_cmbtp_itemizer e17500 e00100 e18400 e62100 e00700 e04470 e21040
          e18500 e20800 =
        e62100 -
          min (max 0 (e17500 - 0.075 * max 0 e00100)) (0.025 * max 0 e00100) +
          e00700 + e04470 + e21040 - max 0 e18400 - e00100 - e18500 - e20800) ∧
    imputed_cmbtp_itemizer 1000 10000 200 5000 100 300 50 150 80 = -5230 := by
  constructor
  · intro e17500 e00100 e18400 e62100 e00700 e04470 e21040 e18500 e20800
    unfold imputed_cmbtp_itemizer
    rw [mul_comm (max 0 e00100) 0.075]
  · norm_num [imputed_cmbtp_itemizer]

/-- C7: the blowup multiplies the sign-dependent fields e00900, e00900p,
e00900s by ASCHCI when nonnegative and ASCHCL when negative, and e02000 by
ASCHEI when nonnegative and ASCHEL when negative; at value -5 with factor pair
1.1 and 0.9 the result is -4.5. -/
theorem blowup_sign_dependent_spec :
    (∀ (bf : FactorsRow) (r : Record),
      ((blowup bf r).e00900 =
        if r.e00900 ≥ 0 then r.e00900 * bf.ASCHCI else r.e00900 * bf.ASCHCL) ∧
      ((blowup bf r).e00900p =
        if r.e00900p ≥ 0 then r.e00900p * bf.ASCHCI else r.e00900p * bf.ASCHCL) ∧
      ((blowup bf r).e00900s =
        if r.e00900s ≥ 0 then r.e00900s * bf.ASCHCI else r.e00900s * bf.ASCHCL) ∧
      ((blowup bf r).e02000 =
        if r.e02000 ≥ 0 then r.e02000 * bf.ASCHEI else r.e02000 * bf.ASCHEL)) ∧
    (blowup exBFSign exRecNeg).e00900 = -4.5 ∧
    (blowup exBFSign exRecNeg).e02000 = -4.5 ∧
    (blowup exBFSign exRecNeg).e00900s = 11 := by
  refine ⟨fun bf r => ⟨rfl, rfl, rfl, rfl⟩, ?_, ?_, ?_⟩ <;>
    norm_num [blowup, exBFSign, exRecNeg]

/-- C8: the blowup maps e01000 to e01000 times ACGNS when e01000 is
nonnegative and leaves e01000 unchanged when it is negative. -/
theorem blowup_capital_gains_asymmetric :
    (∀ (bf : FactorsRow) (r : Record),
      (blowup bf r).e01000 =
        if r.e01000 ≥ 0 then r.e01000 * bf.ACGNS else r.e01000) ∧
    (blowup exBFSign exRecNeg).e01000 = -5 ∧
    (blowup exBFSign exRecPos).e01000 = 13 := by
  refine ⟨fun bf r => rfl, ?_, ?_⟩ <;> norm_num [blowup, exBFSign, exRecNeg, exRecPos]

/-- C10: immediately after imputation the primary and secondary split
components sum exactly to the joint totals for e00200, e00900 and e02100. -/
theorem impute_split_components_sum (r : Record) :
    (impute r).e00200p + (impute r).e00200s = (impute r).e00200 ∧
    (impute r).e00900p + (impute r).e00900s = (impute r).e00900 ∧
    (impute r).e02100p + (impute r).e02100s = (impute r).e02100 := by
  unfold impute
  dsimp only
  refine ⟨by ring, by ring, by ring⟩

/-- C3 counterexample: a joint-filing record whose wage sum is zero receives
earnings-split ratio 1, not 0 as the claim states, so the whole joint total
goes to the p component. -/
theorem earning_split_zero_wage_sum_is_one :
    exRecZeroWages.MARS = 2 ∧
    exRecZeroWages.wage_head + exRecZeroWages.wage_spouse = 0 ∧
    (impute exRecZeroWages)._earning_split = 1 ∧
    (impute exRecZeroWages)._earning_split ≠ 0 ∧
    (impute exRecZeroWages).e00200p = 7 ∧
    (impute exRecZeroWages).e00200s = 0 := by
  norm_num [impute, imputed_cmbtp_itemizer, exRecZeroWages]

/-- C3 amended: the imputed ratio equals wage_head / (wage_head + wage_spouse)
for joint units with nonzero wage sum, equals 1 (not 0) for joint units whose
wage sum is zero, and equals 1 for non-joint units; the ratio splits e00200,
e00900 and e02100 into ratio times total and one minus ratio times total,
overwriting existing split values; at the specification example the ratio is
0.6 and e00200 = 1000 splits into 600 and 400. -/
theorem impute_earning_split_spec :
    (∀ r : Record,
      ((impute r)._earning_split =
        if r.MARS = 2 then
          (if r.wage_head + r.wage_spouse ≠ 0 then
            r.wage_head / (r.wage_head + r.wage_spouse)
          else 1)
        else 1) ∧
      (impute r).e00200p = (impute r)._earning_split * r.e00200 ∧
      (impute r).e00200s = (1 - (impute r)._earning_split) * r.e00200 ∧
      (impute r).e00900p = (impute r)._earning_split * r.e00900 ∧
      (impute r).e00900s = (1 - (impute r)._earning_split) * r.e00900 ∧
      (impute r).e02100p = (impute r)._earning_split * r.e02100 ∧
      (impute r).e02100s = (1 - (impute r)._earning_split) * r.e02100) ∧
    (impute exRecSplit)._earning_split = 0.6 ∧
    (impute exRecSplit).e00200p = 600 ∧
    (impute exRecSplit).e00200s = 400 := by
  refine ⟨fun r => ⟨?_, rfl, rfl, rfl, rfl, rfl, rfl⟩, ?_, ?_, ?_⟩
  · unfold impute
    dsimp only
    by_cases hm : r.MARS = 2 <;> simp [hm]
  all_goals norm_num [impute, exRecSplit]

/-- Arithmetic form of the pct_change step: for a nonzero base b the
normalized entry 1 + (a - b) / b equals the ratio a / b. -/
theorem one_add_pct_change (a b : ℚ) (hb : b ≠ 0) : 1 + (a - b) / b = a / b := by
  field_simp

/-- C4: after normalization the entry of every economy-wide aggregate series
at a row equals the ratio of per-capita levels, current raw value over its
population divisor divided by previous raw value over its divisor, with APOPN
the divisor for AGDPN through ABOOK and APOPSNR the divisor for ASOCSEC. -/
theorem normalizeBF_aggregate_ratio (prev cur : FactorsRow)
    (hPOP : prev.APOPN ≠ 0) (hSNR : prev.APOPSNR ≠ 0)
    (h1 : prev.AGDPN ≠ 0) (h2 : prev.ATXPY ≠ 0) (h3 : prev.AWAGE ≠ 0)
    (h4 : prev.ASCHCI ≠ 0) (h5 : prev.ASCHCL ≠ 0) (h6 : prev.ASCHF ≠ 0)
    (h7 : prev.AINTS ≠ 0) (h8 : prev.ADIVS ≠ 0) (h9 : prev.ASCHEI ≠ 0)
    (h10 : prev.ASCHEL ≠ 0) (h11 : prev.ACGNS ≠ 0) (h12 : prev.ABOOK ≠ 0)
    (h13 : prev.ASOCSEC ≠ 0) :
    (normalizeBF prev cur).AGDPN =
      (cur.AGDPN / cur.APOPN) / (prev.AGDPN / prev.APOPN) ∧
    (normalizeBF prev cur).ATXPY =
      (cur.ATXPY / cur.APOPN) / (prev.ATXPY / prev.APOPN) ∧
    (normalizeBF prev cur).AWAGE =
      (cur.AWAGE / cur.APOPN) / (prev.AWAGE / prev.APOPN) ∧
    (normalizeBF prev cur).ASCHCI =
      (cur.ASCHCI / cur.APOPN) / (prev.ASCHCI / prev.APOPN) ∧
    (normalizeBF prev cur).ASCHCL =
      (cur.ASCHCL / cur.APOPN) / (prev.ASCHCL / prev.APOPN) ∧
    (normalizeBF prev cur).ASCHF =
      (cur.ASCHF / cur.APOPN) / (prev.ASCHF / prev.APOPN) ∧
    (normalizeBF prev cur).AINTS =
      (cur.AINTS / cur.APOPN) / (prev.AINTS / prev.APOPN) ∧
    (normalizeBF prev cur).ADIVS =
      (cur.ADIVS / cur.APOPN) / (prev.ADIVS / prev.APOPN) ∧
    (normalizeBF prev cur).ASCHEI =
      (cur.ASCHEI / cur.APOPN) / (prev.ASCHEI / prev.APOPN) ∧
    (normalizeBF prev cur).ASCHEL =
      (cur.ASCHEL / cur.APOPN) / (prev.ASCHEL / prev.APOPN) ∧
    (normalizeBF prev cur).ACGNS =
      (cur.ACGNS / cur.APOPN) / (prev.ACGNS / prev.APOPN) ∧
    (normalizeBF prev cur).ABOOK =
      (cur.ABOOK / cur.APOPN) / (prev.ABOOK / prev.APOPN) ∧
    (normalizeBF prev cur).ASOCSEC =
      (cur.ASOCSEC / cur.APOPSNR) / (prev.ASOCSEC / prev.APOPSNR) :=
  ⟨one_add_pct_change _ _ (div_ne_zero h1 hPOP),
   one_add_pct_change _ _ (div_ne_zero h2 hPOP),
   one_add_pct_change _ _ (div_ne_zero h3 hPOP),
   one_add_pct_change _ _ (div_ne_zero h4 hPOP),
   one_add_pct_change _ _ (div_ne_zero h5 hPOP),
   one_add_pct_change _ _ (div_ne_zero h6 hPOP),
   one_add_pct_change _ _ (div_ne_zero h7 hPOP),
   one_add_pct_change _ _ (div_ne_zero h8 hPOP),
   one_add_pct_change _ _ (div_ne_zero h9 hPOP),
   one_add_pct_change _ _ (div_ne_zero h10 hPOP),
   one_add_pct_change _ _ (div_ne_zero h11 hPOP),
   one_add_pct_change _ _ (div_ne_zero h12 hPOP),
   one_add_pct_change _ _ (div_ne_zero h13 hSNR)⟩

/-- C4 witness: the aggregate-ratio theorem applied at the concrete two-row
table. -/
theorem normalizeBF_aggregate_ratio_instance :
    (normalizeBF exRawPrev exRawCur).AGDPN =
      (exRawCur.AGDPN / exRawCur.APOPN) / (exRawPrev.AGDPN / exRawPrev.APOPN) ∧
    (normalizeBF exRawPrev exRawCur).ATXPY =
      (exRawCur.ATXPY / exRawCur.APOPN) / (exRawPrev.ATXPY / exRawPrev.APOPN) ∧
    (normalizeBF exRawPrev exRawCur).AWAGE =
      (exRawCur.AWAGE / exRawCur.APOPN) / (exRawPrev.AWAGE / exRawPrev.APOPN) ∧
    (normalizeBF exRawPrev exRawCur).ASCHCI =
      (exRawCur.ASCHCI / exRawCur.APOPN) / (exRawPrev.ASCHCI / exRawPrev.APOPN) ∧
    (normalizeBF exRawPrev exRawCur).ASCHCL =
      (exRawCur.ASCHCL / exRawCur.APOPN) / (exRawPrev.ASCHCL / exRawPrev.APOPN) ∧
    (normalizeBF exRawPrev exRawCur).ASCHF =
      (exRawCur.ASCHF / exRawCur.APOPN) / (exRawPrev.ASCHF / exRawPrev.APOPN) ∧
    (normalizeBF exRawPrev exRawCur).AINTS =
      (exRawCur.AINTS / exRawCur.APOPN) / (exRawPrev.AINTS / exRawPrev.APOPN) ∧
    (normalizeBF exRawPrev exRawCur).ADIVS =
      (exRawCur.ADIVS / exRawCur.APOPN) / (exRawPrev.ADIVS / exRawPrev.APOPN) ∧
    (normalizeBF exRawPrev exRawCur).ASCHEI =
      (exRawCur.ASCHEI / exRawCur.APOPN) / (exRawPrev.ASCHEI / exRawPrev.APOPN) ∧
    (normalizeBF exRawPrev exRawCur).ASCHEL =
      (exRawCur.ASCHEL / exRawCur.APOPN) / (exRawPrev.ASCHEL / exRawPrev.APOPN) ∧
    (normalizeBF exRawPrev exRawCur).ACGNS =
      (exRawCur.ACGNS / exRawCur.APOPN) / (exRawPrev.ACGNS / exRawPrev.APOPN) ∧
    (normalizeBF exRawPrev exRawCur).ABOOK =
      (exRawCur.ABOOK / exRawCur.APOPN) / (exRawPrev.ABOOK / exRawPrev.APOPN) ∧
    (normalizeBF exRawPrev exRawCur).ASOCSEC =
      (exRawCur.ASOCSEC / exRawCur.APOPSNR) /
        (exRawPrev.ASOCSEC / exRawPrev.APOPSNR) :=
  normalizeBF_aggregate_ratio exRawPrev exRawCur (by decide) (by decide)
    (by decide) (by decide) (by decide) (by decide) (by decide) (by decide)
    (by decide) (by decide) (by decide) (by decide) (by decide) (by decide)
    (by decide)

/-- C5 counterexample: normalization does change the population and
price-index columns: with raw APOPN 2 then 3 the normalized APOPN entry is
3/2, not the published 3, and with raw ACPIU 3 then 6 the normalized ACPIU
entry is 2, not the published 6. -/
theorem normalizeBF_population_changed :
    (normalizeBF exRawPrev exRawCur).APOPN = 3 / 2 ∧
    (normalizeBF exRawPrev exRawCur).APOPN ≠ exRawCur.APOPN ∧
    (normalizeBF exRawPrev exRawCur).ACPIU = 2 ∧
    (normalizeBF exRawPrev exRawCur).ACPIU ≠ exRawCur.ACPIU := by
  norm_num [normalizeBF, divideByPop, onePlusPctChange, exRawPrev, exRawCur]

/-- C5 amended: the population and price-index series APOPN, ACPIU, APOPDEP,
ACPIM and APOPSNR skip the per-capita division of step 1, but the
dataframe-wide 1 + pct_change step still replaces each of them by its own
period-over-period growth ratio, current raw value over previous raw value,
so they do not remain as published. -/
theorem normalizeBF_population_ratio (prev cur : FactorsRow)
    (hN : prev.APOPN ≠ 0) (hU : prev.ACPIU ≠ 0) (hD : prev.APOPDEP ≠ 0)
    (hM : prev.ACPIM ≠ 0) (hS : prev.APOPSNR ≠ 0) :
    (normalizeBF prev cur).APOPN = cur.APOPN / prev.APOPN ∧
    (normalizeBF prev cur).ACPIU = cur.ACPIU / prev.ACPIU ∧
    (normalizeBF prev cur).APOPDEP = cur.APOPDEP / prev.APOPDEP ∧
    (normalizeBF prev cur).ACPIM = cur.ACPIM / prev.ACPIM ∧
    (normalizeBF prev cur).APOPSNR = cur.APOPSNR / prev.APOPSNR :=
  ⟨one_add_pct_change _ _ hN, one_add_pct_change _ _ hU,
   one_add_pct_change _ _ hD, one_add_pct_change _ _ hM,
   one_add_pct_change _ _ hS⟩

/-- C5 amended witness: the population-ratio theorem applied at the concrete
two-row table. -/
theorem normalizeBF_population_ratio_instance :
    (normalizeBF exRawPrev exRawCur).APOPN = exRawCur.APOPN / exRawPrev.APOPN ∧
    (normalizeBF exRawPrev exRawCur).ACPIU = exRawCur.ACPIU / exRawPrev.ACPIU ∧
    (normalizeBF exRawPrev exRawCur).APOPDEP =
      exRawCur.APOPDEP / exRawPrev.APOPDEP ∧
    (normalizeBF exRawPrev exRawCur).ACPIM = exRawCur.ACPIM / exRawPrev.ACPIM ∧
    (normalizeBF exRawPrev exRawCur).APOPSNR =
      exRawCur.APOPSNR / exRawPrev.APOPSNR :=
  normalizeBF_population_ratio exRawPrev exRawCur (by decide) (by decide)
    (by decide) (by decide) (by decide)

/-- C9: with a file name absent from both the filesystem and the bundled
resource store, loading weights or blowup factors does not surface the
documented ValueError: the except handler builds the ValueError without
raising it and the method then fails at its next use of the unbound local,
modelled as UnboundLocalError. -/
theorem read_missing_file_not_valueerror :
    read_weights Unit (fun _ => none) (fun _ => none)
        (Sum.inr "no_such_file.csv") =
      Except.error PyError.unboundLocalError ∧
    read_blowup_locate Unit (fun _ => none) (fun _ => none)
        (Sum.inr "no_such_file.csv") =
      Except.error PyError.unboundLocalError ∧
    (∀ msg : String,
      read_weights Unit (fun _ => none) (fun _ => none)
          (Sum.inr "no_such_file.csv") ≠
        Except.error (PyError.valueError msg)) := by
  refine ⟨rfl, rfl, fun msg h => ?_⟩
  rw [show read_weights Unit (fun _ => none) (fun _ => none)
        (Sum.inr "no_such_file.csv") =
      Except.error PyError.unboundLocalError from rfl] at h
  exact PyError.noConfusion (Except.error.inj h)

/-- C2 counterexample: advancing from 2009 with an empty factor table raises
LookupError, but the state visible to the caller at the raise already has
current_year 2010 and the per-record FLPDYR incremented to 2010, refuting the
claim that neither is mutated. -/
theorem increment_year_missing_row_mutates_year :
    (errorState (increment_year exStNoRows)).map RecState.current_year =
      some 2010 ∧
    exStNoRows.current_year = 2009 ∧
    (errorState (increment_year exStNoRows)).map
        (fun s => s.recs.map Record.FLPDYR) =
      some [2010] := by
  refine ⟨rfl, rfl, ?_⟩
  norm_num [increment_year, errorState, exStNoRows]

/-- C2 amended: when the normalized factor table has no row for
current_year + 1, increment_year raises LookupError at the missing-row access
before any record field vector or the weight vector is written, but after the
scalar year and the FLPDYR vector are incremented: the caller-visible state at
the raise has current_year + 1 and every record changed only at FLPDYR, with
the factor and weight tables untouched. -/
theorem increment_year_missing_row_visible_state (st : RecState)
    (hbf : st.BF (st.current_year + 1) = none) :
    errorState (increment_year st) =
      some
        { st with
          current_year := st.current_year + 1,
          recs := st.recs.map (fun r => { r with FLPDYR := r.FLPDYR + 1 }) } := by
  unfold increment_year
  dsimp only
  rw [hbf]
  rfl

/-- C2 amended witness: the visible-state theorem applied at the concrete
empty-table state. -/
theorem increment_year_missing_row_visible_state_instance :
    errorState (increment_year exStNoRows) =
      some
        { exStNoRows with
          current_year := exStNoRows.current_year + 1,
          recs := exStNoRows.recs.map
            (fun r => { r with FLPDYR := r.FLPDYR + 1 }) } :=
  increment_year_missing_row_visible_state exStNoRows rfl

/-- Structural form of the success path of increment_year: when the factor
table has the row and the weight table has the column of the new year, the
call returns the state with the incremented year and the records mapped
through the FLPDYR increment, the blowup and the s006 reweighting. -/
theorem increment_year_ok (st : RecState) (bf : FactorsRow) (w : List ℚ)
    (hbf : st.BF (st.current_year + 1) = some bf)
    (hw : st.WT (st.current_year + 1) = some w) :
    increment_year st = Except.ok
      { current_year := st.current_year + 1,
        recs := List.zipWith (fun r wi => { r with s006 := wi / 100 })
          (List.map (blowup bf)
            (List.map (fun r => { r with FLPDYR := r.FLPDYR + 1 }) st.recs)) w,
        BF := st.BF, WT := st.WT } := by
  unfold increment_year
  dsimp only
  rw [hbf]
  dsimp only
  rw [hw]

set_option maxHeartbeats 1600000 in
/-- C1: on any state at current_year 2009 whose factor table has the 2010 row
and whose weight table has a WT2010 column of matching length, one call of
increment_year succeeds: it sets current_year to 2010, adds exactly 1 to the
FLPDYR of every record, multiplies each single-factor field of every record by
the named series of the 2010 row (shown for e00200 with AWAGE, e00300 with
AINTS, e00600 with ADIVS and e17500 with ACPIM), and overwrites the s006 of
record i with entry i of the WT2010 column scaled by 0.01. -/
theorem increment_year_from_2009 (st : RecState) (bf : FactorsRow) (w : List ℚ)
    (hy : st.current_year = 2009) (hbf : st.BF 2010 = some bf)
    (hw : st.WT 2010 = some w) (hlen : w.length = st.recs.length) :
    ∃ st2, increment_year st = Except.ok st2 ∧
      st2.current_year = 2010 ∧
      st2.recs.length = st.recs.length ∧
      ∀ (i : ℕ) (hi : i < st.recs.length) (hi2 : i < st2.recs.length)
        (hiw : i < w.length),
        (st2.recs[i]).FLPDYR = (st.recs[i]).FLPDYR + 1 ∧
        (st2.recs[i]).e00200 = (st.recs[i]).e00200 * bf.AWAGE ∧
        (st2.recs[i]).e00300 = (st.recs[i]).e00300 * bf.AINTS ∧
        (st2.recs[i]).e00600 = (st.recs[i]).e00600 * bf.ADIVS ∧
        (st2.recs[i]).e17500 = (st.recs[i]).e17500 * bf.ACPIM ∧
        (st2.recs[i]).s006 = (w[i]) * 0.01 := by
  have hy1 : st.current_year + 1 = 2010 := by rw [hy]; norm_num
  have hok := increment_year_ok st bf w (by rw [hy1]; exact hbf)
    (by rw [hy1]; exact hw)
  refine ⟨_, hok, hy1, ?_, ?_⟩
  · rw [List.length_zipWith, List.length_map, List.length_map, hlen, min_self]
  · intro i hi hi2 hiw
    rw [List.getElem_zipWith, List.getElem_map, List.getElem_map]
    refine ⟨rfl, rfl, rfl, rfl, rfl, ?_⟩
    rw [show (0.01 : ℚ) = 1 / 100 from by norm_num, mul_one_div]

/-- C1 witness: the advance theorem applied at the concrete 2009 state with a
factor row for 2010 and the weight column WT2010 = [250]. -/
theorem increment_year_from_2009_instance :
    ∃ st2, increment_year exSt2009 = Except.ok st2 ∧
      st2.current_year = 2010 ∧
      st2.recs.length = exSt2009.recs.length ∧
      ∀ (i : ℕ) (hi : i < exSt2009.recs.length) (hi2 : i < st2.recs.length)
        (hiw : i < ([(250 : ℚ)]).length),
        (st2.recs[i]).FLPDYR = (exSt2009.recs[i]).FLPDYR + 1 ∧
        (st2.recs[i]).e00200 = (exSt2009.recs[i]).e00200 * exBFSign.AWAGE ∧
        (st2.recs[i]).e00300 = (exSt2009.recs[i]).e00300 * exBFSign.AINTS ∧
        (st2.recs[i]).e00600 = (exSt2009.recs[i]).e00600 * exBFSign.ADIVS ∧
        (st2.recs[i]).e17500 = (exSt2009.recs[i]).e17500 * exBFSign.ACPIM ∧
        (st2.recs[i]).s006 = (([(250 : ℚ)])[i]) * 0.01 :=
  increment_year_from_2009 exSt2009 exBFSign [250] rfl rfl rfl rfl

end TaxRecords
